import Mathlib

/-!
Shallow embedding of the POS Chanatos order/payment core
(`src/types/index.ts`, `src/utils/order.utils.ts`, `src/services/order.service.ts`,
`src/services/payment.service.ts`, `src/services/kitchen.service.ts`,
`src/services/waiter.service.ts`).

Monetary amounts are modelled as rationals; timestamps as naturals.
Each service method becomes a pure function on an explicit order/payment
state, returning `Except PosError` for the thrown-error paths, with the
checks in the order the source performs them.  Database writes that are
conditional on the stored row (prisma `updateMany` keyed on an expected
status) take the stored-at-write-time status as an explicit argument.
-/

deriving instance DecidableEq for Except

namespace Pos

/-- Roles of `RoleType` (CAJA = cashier, MESERO = waiter, COCINA = kitchen). -/
inductive RoleType
  | CAJA
  | MESERO
  | COCINA
  deriving DecidableEq, Repr

/-- Order statuses of `OrderStatus`. -/
inductive OrderStatus
  | RECIBIDO
  | PREPARACION
  | LISTO
  | ENTREGADO
  | CANCELADO
  deriving DecidableEq, Repr

/-- Order channels of `ChannelType`. -/
inductive ChannelType
  | MESA
  | VENTANILLA
  | DOMICILIO
  deriving DecidableEq, Repr

/-- Payment methods of `PaymentMethod`. -/
inductive PaymentMethod
  | EFECTIVO
  | TARJETA
  | TRANSFERENCIA
  | OTRO
  deriving DecidableEq, Repr

/-- The `Permission` enum of `src/types/index.ts`. -/
inductive Permission
  | ORDER_CREATE
  | ORDER_ADD_ITEMS
  | ORDER_EDIT_ITEMS
  | ORDER_DELETE_ITEMS
  | ORDER_CANCEL
  | ORDER_REQUEST_BILL
  | ORDER_MARK_PAID
  | STATUS_RECIBIDO_TO_PREPARACION
  | STATUS_PREPARACION_TO_LISTO
  | STATUS_LISTO_TO_ENTREGADO
  | STATUS_TO_CANCELADO
  | CASH_OPEN_SESSION
  | CASH_CLOSE_SESSION
  | CASH_VIEW_REPORTS
  | VIEW_PRICES
  | VIEW_FINANCIAL_REPORTS
  deriving DecidableEq, Repr

/-- The `ROLE_PERMISSIONS` table of `src/types/index.ts`. -/
def ROLE_PERMISSIONS : RoleType → List Permission
  | .CAJA =>
      [.ORDER_CREATE, .ORDER_ADD_ITEMS, .ORDER_EDIT_ITEMS, .ORDER_DELETE_ITEMS,
       .ORDER_CANCEL, .ORDER_REQUEST_BILL, .ORDER_MARK_PAID,
       .STATUS_RECIBIDO_TO_PREPARACION, .STATUS_PREPARACION_TO_LISTO,
       .STATUS_LISTO_TO_ENTREGADO, .STATUS_TO_CANCELADO,
       .CASH_OPEN_SESSION, .CASH_CLOSE_SESSION, .CASH_VIEW_REPORTS,
       .VIEW_PRICES, .VIEW_FINANCIAL_REPORTS]
  | .MESERO =>
      [.ORDER_CREATE, .ORDER_ADD_ITEMS, .ORDER_REQUEST_BILL,
       .STATUS_LISTO_TO_ENTREGADO, .VIEW_PRICES]
  | .COCINA =>
      [.STATUS_RECIBIDO_TO_PREPARACION, .STATUS_PREPARACION_TO_LISTO]

/-- `hasPermission` as used by the services: membership lookup in `ROLE_PERMISSIONS`. -/
def hasPermission (role : RoleType) (p : Permission) : Bool :=
  (ROLE_PERMISSIONS role).contains p

/-- The `VALID_STATUS_TRANSITIONS` adjacency table of `src/types/index.ts`. -/
def VALID_STATUS_TRANSITIONS : OrderStatus → List OrderStatus
  | .RECIBIDO => [.PREPARACION, .CANCELADO]
  | .PREPARACION => [.LISTO, .CANCELADO]
  | .LISTO => [.ENTREGADO, .CANCELADO]
  | .ENTREGADO => []
  | .CANCELADO => []

/-- `isValidStatusTransition` of `src/utils/order.utils.ts`. -/
def isValidStatusTransition (fromSt toSt : OrderStatus) : Bool :=
  (VALID_STATUS_TRANSITIONS fromSt).contains toSt

/-- `canModifyOrder` of `src/utils/order.utils.ts`: a paid order cannot be modified. -/
def canModifyOrder (paidAt : Option Nat) : Bool :=
  paidAt = none

/-- `canCancelOrder` of `src/utils/order.utils.ts`: only unpaid orders can be cancelled. -/
def canCancelOrder (paidAt : Option Nat) : Bool :=
  paidAt = none

/-- Error kinds of the §7 taxonomy, attached to each thrown message site. -/
inductive ErrKind
  | validation
  | forbidden
  | notFound
  | stateErr
  | conflict
  | concurrency
  deriving DecidableEq, Repr

/-- A thrown error: its taxonomy kind together with the message of the source throw site. -/
structure PosError where
  kind : ErrKind
  msg : String
  deriving DecidableEq, Repr

/-- One `OrderItem` row. -/
structure OrderItem where
  id : String
  productName : String
  quantity : Nat
  price : Rat
  notes : Option String
  deriving DecidableEq, Repr

/-- One `Order` row with its items (`paidAt` as an optional timestamp). -/
structure Order where
  id : String
  channel : ChannelType
  tableId : Option String
  status : OrderStatus
  requestedBill : Bool
  paidAt : Option Nat
  notes : Option String
  userId : String
  items : List OrderItem
  deriving DecidableEq, Repr

/-- One `Payment` row (the fields the payment arithmetic uses). -/
structure Payment where
  amount : Rat
  method : PaymentMethod
  deriving DecidableEq, Repr

/-- `OrderService.canChangeStatus`: role authorization for a specific (from, to) pair. -/
def canChangeStatus (role : RoleType) (fromSt toSt : OrderStatus) : Bool :=
  match role with
  | .CAJA => isValidStatusTransition fromSt toSt
  | .MESERO => fromSt = OrderStatus.LISTO && toSt = OrderStatus.ENTREGADO
  | .COCINA =>
      (fromSt = OrderStatus.RECIBIDO && toSt = OrderStatus.PREPARACION) ||
      (fromSt = OrderStatus.PREPARACION && toSt = OrderStatus.LISTO)

set_option linter.unusedVariables false in
/-- `OrderService.changeStatus` on an order that was found.  `order` is the row as
read at the start of the call; `stored` is the status the row holds at the moment
the update executes (it may differ when a concurrent writer raced in between).
The source's write is `prisma.order.update` keyed on the id only, so the write
applies whatever `stored` is; `stored` is accepted here only to make that
independence provable. -/
def changeStatus (role : RoleType) (order : Order) (newStatus : OrderStatus)
    (stored : OrderStatus) : Except PosError Order :=
  if order.paidAt.isSome && !(newStatus = OrderStatus.ENTREGADO : Bool) then
    .error ⟨.stateErr, "Cannot change status of paid order"⟩
  else if !(isValidStatusTransition order.status newStatus) then
    .error ⟨.validation, "Invalid status transition"⟩
  else if !(canChangeStatus role order.status newStatus) then
    .error ⟨.forbidden, "Role cannot change status"⟩
  else
    .ok { order with status := newStatus }

/-- `KitchenService.startPreparation`: RECIBIDO to PREPARACION.  The write is
`updateMany` keyed on the id AND `status = RECIBIDO`; `stored` is the status the
row holds when the update executes, and a zero-row match (stored status moved)
throws the retry error. -/
def startPreparation (role : RoleType) (order : Order) (stored : OrderStatus) :
    Except PosError Order :=
  if !(role = RoleType.COCINA : Bool) then
    .error ⟨.forbidden, "Only COCINA role can access kitchen endpoints"⟩
  else if order.status = OrderStatus.CANCELADO then
    .error ⟨.stateErr, "Cannot start preparation for cancelled order"⟩
  else if order.status = OrderStatus.ENTREGADO then
    .error ⟨.stateErr, "Cannot start preparation for delivered order"⟩
  else if order.paidAt.isSome then
    .error ⟨.stateErr, "Cannot start preparation for paid order"⟩
  else if !(order.status = OrderStatus.RECIBIDO : Bool) then
    .error ⟨.stateErr, "Cannot start preparation: status is not RECIBIDO"⟩
  else if !(isValidStatusTransition OrderStatus.RECIBIDO OrderStatus.PREPARACION) then
    .error ⟨.validation, "Invalid status transition from RECIBIDO to PREPARACION"⟩
  else if !(stored = OrderStatus.RECIBIDO : Bool) then
    .error ⟨.concurrency, "Order status changed. Please refresh and try again."⟩
  else
    .ok { order with status := OrderStatus.PREPARACION }

/-- `KitchenService.markReady`: PREPARACION to LISTO, with the same conditional
`updateMany` write discipline as `startPreparation`. -/
def markReady (role : RoleType) (order : Order) (stored : OrderStatus) :
    Except PosError Order :=
  if !(role = RoleType.COCINA : Bool) then
    .error ⟨.forbidden, "Only COCINA role can access kitchen endpoints"⟩
  else if order.status = OrderStatus.CANCELADO then
    .error ⟨.stateErr, "Cannot mark ready for cancelled order"⟩
  else if order.status = OrderStatus.ENTREGADO then
    .error ⟨.stateErr, "Cannot mark ready for delivered order"⟩
  else if order.paidAt.isSome then
    .error ⟨.stateErr, "Cannot mark ready for paid order"⟩
  else if !(order.status = OrderStatus.PREPARACION : Bool) then
    .error ⟨.stateErr, "Cannot mark ready: status is not PREPARACION"⟩
  else if !(isValidStatusTransition OrderStatus.PREPARACION OrderStatus.LISTO) then
    .error ⟨.validation, "Invalid status transition from PREPARACION to LISTO"⟩
  else if !(stored = OrderStatus.PREPARACION : Bool) then
    .error ⟨.concurrency, "Order status changed. Please refresh and try again."⟩
  else
    .ok { order with status := OrderStatus.LISTO }

/-- `WaiterService.deliverOrder`: LISTO to ENTREGADO, with the conditional
`updateMany` (keyed on `status = LISTO`) inside a transaction. -/
def deliverOrder (role : RoleType) (order : Order) (stored : OrderStatus) :
    Except PosError Order :=
  if !(role = RoleType.MESERO : Bool) then
    .error ⟨.forbidden, "Only MESERO role can access waiter endpoints"⟩
  else if !(order.status = OrderStatus.LISTO : Bool) then
    .error ⟨.stateErr, "Cannot deliver order: status is not LISTO"⟩
  else if !(isValidStatusTransition OrderStatus.LISTO OrderStatus.ENTREGADO) then
    .error ⟨.validation, "Invalid status transition from LISTO to ENTREGADO"⟩
  else if !(stored = OrderStatus.LISTO : Bool) then
    .error ⟨.concurrency, "Order status changed. Please refresh and try again."⟩
  else
    .ok { order with status := OrderStatus.ENTREGADO }

/-- Item payload of `addItems` and `createOrder` (`CreateOrderItem`). -/
structure CreateOrderItem where
  id : String
  productName : String
  quantity : Nat
  price : Rat
  notes : Option String
  deriving DecidableEq, Repr

/-- Row created from a `CreateOrderItem` payload. -/
def CreateOrderItem.toItem (c : CreateOrderItem) : OrderItem :=
  ⟨c.id, c.productName, c.quantity, c.price, c.notes⟩

/-- `OrderService.addItems` on an order that was found: permission check, then the
paid and cancelled guards, then a pure append of the new item rows. -/
def addItems (role : RoleType) (order : Order) (newItems : List CreateOrderItem) :
    Except PosError Order :=
  if !(hasPermission role Permission.ORDER_ADD_ITEMS) then
    .error ⟨.forbidden, "No permission to add items"⟩
  else if !(canModifyOrder order.paidAt) then
    .error ⟨.stateErr, "Cannot modify paid order"⟩
  else if order.status = OrderStatus.CANCELADO then
    .error ⟨.stateErr, "Cannot add items to cancelled order"⟩
  else
    .ok { order with items := order.items ++ newItems.map CreateOrderItem.toItem }

/-- Patch payload of `editItem` (`UpdateOrderItemData`); absent fields leave the
row unchanged. -/
structure UpdateOrderItemData where
  productName : Option String
  quantity : Option Nat
  price : Option Rat
  notes : Option String
  deriving DecidableEq, Repr

/-- Application of an `UpdateOrderItemData` patch to one item row. -/
def applyPatch (item : OrderItem) (patch : UpdateOrderItemData) : OrderItem :=
  { item with
      productName := patch.productName.getD item.productName
      quantity := patch.quantity.getD item.quantity
      price := patch.price.getD item.price
      notes := if patch.notes.isSome then patch.notes else item.notes }

/-- `OrderService.editItem` on an order that was found: permission, paid guard,
item-belongs check, then the row update. -/
def editItem (role : RoleType) (order : Order) (itemId : String)
    (patch : UpdateOrderItemData) : Except PosError Order :=
  if !(hasPermission role Permission.ORDER_EDIT_ITEMS) then
    .error ⟨.forbidden, "No permission to edit items"⟩
  else if !(canModifyOrder order.paidAt) then
    .error ⟨.stateErr, "Cannot modify paid order"⟩
  else if !(order.items.any (fun i => i.id = itemId)) then
    .error ⟨.notFound, "Item not found in this order"⟩
  else
    .ok { order with
            items := order.items.map (fun i =>
              if i.id = itemId then applyPatch i patch else i) }

/-- `OrderService.deleteItem` on an order that was found: permission, paid guard,
item-belongs check, last-item guard, then deletion of the one row with that id. -/
def deleteItem (role : RoleType) (order : Order) (itemId : String) :
    Except PosError Order :=
  if !(hasPermission role Permission.ORDER_DELETE_ITEMS) then
    .error ⟨.forbidden, "No permission to delete items"⟩
  else if !(canModifyOrder order.paidAt) then
    .error ⟨.stateErr, "Cannot modify paid order"⟩
  else if !(order.items.any (fun i => i.id = itemId)) then
    .error ⟨.notFound, "Item not found in this order"⟩
  else if order.items.length = 1 then
    .error ⟨.stateErr, "Cannot delete the last item. Cancel the order instead."⟩
  else
    .ok { order with items := order.items.eraseP (fun i => i.id = itemId) }

/-- The reason check of `cancelOrder`: the source rejects a reason that is
falsy or whose trim has length zero, i.e. a reason that is empty or consists
entirely of whitespace. -/
def blankReason (s : String) : Bool :=
  s.toList.all (fun c => c.isWhitespace)

/-- `OrderService.cancelOrder` on an order that was found: permission, unpaid
guard (`canCancelOrder`), not-already-cancelled guard, non-blank reason, then the
transactional status write to CANCELADO (the cancel-log row carries the reason). -/
def cancelOrder (role : RoleType) (order : Order) (reason : String) :
    Except PosError Order :=
  if !(hasPermission role Permission.ORDER_CANCEL) then
    .error ⟨.forbidden, "No permission to cancel orders"⟩
  else if !(canCancelOrder order.paidAt) then
    .error ⟨.stateErr, "Cannot cancel paid order"⟩
  else if order.status = OrderStatus.CANCELADO then
    .error ⟨.stateErr, "Order is already cancelled"⟩
  else if blankReason reason then
    .error ⟨.validation, "Cancellation reason is required"⟩
  else
    .ok { order with status := OrderStatus.CANCELADO }

/-- `OrderService.requestBill` on an order that was found: permission, paid guard,
then the plain write `requestedBill := true`. -/
def requestBill (role : RoleType) (order : Order) : Except PosError Order :=
  if !(hasPermission role Permission.ORDER_REQUEST_BILL) then
    .error ⟨.forbidden, "No permission to request bill"⟩
  else if order.paidAt.isSome then
    .error ⟨.stateErr, "Order is already paid"⟩
  else
    .ok { order with requestedBill := true }

/-- `WaiterService.requestBill` on an order that was found: MESERO-only endpoint,
paid guard, then the plain write `requestedBill := true`. -/
def waiterRequestBill (role : RoleType) (order : Order) : Except PosError Order :=
  if !(role = RoleType.MESERO : Bool) then
    .error ⟨.forbidden, "Only MESERO role can access waiter endpoints"⟩
  else if order.paidAt.isSome then
    .error ⟨.stateErr, "Order is already paid"⟩
  else
    .ok { order with requestedBill := true }

/-- `PaymentService.calculateOrderTotal`: reduce of price times quantity over the
items, starting at 0. -/
def calculateOrderTotal (items : List OrderItem) : Rat :=
  items.foldl (fun sum item => sum + item.price * item.quantity) 0

/-- `PaymentService.calculatePaidTotal`: reduce of the payment amounts, starting
at 0. -/
def calculatePaidTotal (payments : List Payment) : Rat :=
  payments.foldl (fun sum p => sum + p.amount) 0

/-- The fixed decimal tolerance of `createPayment` (0.01 currency units). -/
def tolerance : Rat := 1 / 100

/-- The value returned by `createPayment`: the updated order snapshot, its
payments, and the computed total/paid/remaining/isPaid summary. -/
structure PaymentResult where
  order : Order
  payments : List Payment
  total : Rat
  paid : Rat
  remaining : Rat
  isPaid : Bool
  deriving DecidableEq, Repr

/-- `PaymentService.createPayment` on the order with its existing payments.
`hasActiveSession` is the result of `CashService.getAnyActiveSession`; `now` is
the timestamp written into `paidAt` when the order becomes fully paid.  The
checks and the arithmetic follow the source order: permission, CAJA-only,
active-session, cancelled, already-paid, positive amount, the strict
overshoot check `newTotal > orderTotal`, then persist; after persisting,
`paidAt` is set exactly when the absolute difference between the updated paid
total and the order total is below the tolerance, and the returned `isPaid` is
the plain comparison `updatedPaidTotal >= orderTotal`. -/
def createPayment (userRole : RoleType) (hasActiveSession : Bool) (order : Order)
    (payments : List Payment) (method : PaymentMethod) (amount : Rat)
    (now : Nat) : Except PosError PaymentResult :=
  if !(hasPermission userRole Permission.ORDER_MARK_PAID) then
    .error ⟨.forbidden, "No permission to create payments"⟩
  else if !(userRole = RoleType.CAJA : Bool) then
    .error ⟨.forbidden, "Only CAJA role can create payments"⟩
  else if !hasActiveSession then
    .error ⟨.stateErr, "No active cash session. Please open a cash session first."⟩
  else if order.status = OrderStatus.CANCELADO then
    .error ⟨.stateErr, "Cannot create payment for cancelled order"⟩
  else if order.paidAt.isSome then
    .error ⟨.stateErr, "Order is already paid"⟩
  else if amount ≤ 0 then
    .error ⟨.validation, "Payment amount must be greater than 0"⟩
  else
    let orderTotal := calculateOrderTotal order.items
    let paidTotal := calculatePaidTotal payments
    let newTotal := paidTotal + amount
    if orderTotal < newTotal then
      .error ⟨.validation, "Payment amount exceeds order total"⟩
    else
      let payments' := payments ++ [⟨amount, method⟩]
      let updatedPaidTotal := paidTotal + amount
      let difference := |updatedPaidTotal - orderTotal|
      let order' :=
        if difference < tolerance then { order with paidAt := some now } else order
      .ok ⟨order', payments', orderTotal, updatedPaidTotal,
           orderTotal - updatedPaidTotal, decide (updatedPaidTotal ≥ orderTotal)⟩

/-- Item shape returned by `OrderService.getOrderById` and `listOrders`: the raw
row, except that the price is nulled for the COCINA role. -/
structure OrderItemView where
  id : String
  productName : String
  quantity : Nat
  price : Option Rat
  notes : Option String
  deriving DecidableEq, Repr

/-- Order shape returned by `OrderService.getOrderById` and `listOrders`. -/
structure OrderView where
  id : String
  channel : ChannelType
  tableId : Option String
  status : OrderStatus
  requestedBill : Bool
  paidAt : Option Nat
  notes : Option String
  userId : String
  items : List OrderItemView
  deriving DecidableEq, Repr

/-- `OrderService.getOrderById` on an order that was found: the order is returned
as is, except that for COCINA every item price is replaced by null. -/
def getOrderById (role : RoleType) (order : Order) : OrderView :=
  if role = RoleType.COCINA then
    ⟨order.id, order.channel, order.tableId, order.status, order.requestedBill,
     order.paidAt, order.notes, order.userId,
     order.items.map (fun i => ⟨i.id, i.productName, i.quantity, none, i.notes⟩)⟩
  else
    ⟨order.id, order.channel, order.tableId, order.status, order.requestedBill,
     order.paidAt, order.notes, order.userId,
     order.items.map (fun i => ⟨i.id, i.productName, i.quantity, some i.price, i.notes⟩)⟩

/-- Filters accepted by `OrderService.listOrders`. -/
structure OrderFilters where
  status : Option OrderStatus
  channel : Option ChannelType
  tableId : Option String
  userId : Option String
  deriving DecidableEq, Repr

/-- Whether one order matches the `listOrders` where-clause built from the filters. -/
def matchesFilters (f : OrderFilters) (o : Order) : Bool :=
  (match f.status with | some s => o.status = s | none => true) &&
  (match f.channel with | some c => o.channel = c | none => true) &&
  (match f.tableId with | some t => o.tableId = some t | none => true) &&
  (match f.userId with | some u => o.userId = u | none => true)

/-- `OrderService.listOrders`: the filtered orders, with every item price nulled
when the calling role is COCINA. -/
def listOrders (role : RoleType) (f : OrderFilters) (orders : List Order) :
    List OrderView :=
  let selected := orders.filter (matchesFilters f)
  if role = RoleType.COCINA then
    selected.map (fun o =>
      ⟨o.id, o.channel, o.tableId, o.status, o.requestedBill, o.paidAt, o.notes,
       o.userId,
       o.items.map (fun i => ⟨i.id, i.productName, i.quantity, none, i.notes⟩)⟩)
  else
    selected.map (fun o =>
      ⟨o.id, o.channel, o.tableId, o.status, o.requestedBill, o.paidAt, o.notes,
       o.userId,
       o.items.map (fun i => ⟨i.id, i.productName, i.quantity, some i.price, i.notes⟩)⟩)

/-- Item shape of the kitchen projections (`KitchenOrderResponse.items`): id,
product name, quantity and notes only, with no price field at all. -/
structure KitchenItemResponse where
  id : String
  productName : String
  quantity : Nat
  notes : Option String
  deriving DecidableEq, Repr

/-- Order shape of the kitchen projections (`KitchenOrderResponse`). -/
structure KitchenOrderResponse where
  id : String
  channel : ChannelType
  status : OrderStatus
  notes : Option String
  items : List KitchenItemResponse
  deriving DecidableEq, Repr

/-- The per-item projection used by every `KitchenService` read path. -/
def kitchenItemOf (i : OrderItem) : KitchenItemResponse :=
  ⟨i.id, i.productName, i.quantity, i.notes⟩

/-- The per-order projection used by the `KitchenService` read paths. -/
def kitchenOrderOf (o : Order) : KitchenOrderResponse :=
  ⟨o.id, o.channel, o.status, o.notes, o.items.map kitchenItemOf⟩

/-- `KitchenService.getKitchenQueue`: COCINA-only; unpaid orders in RECIBIDO or
PREPARACION, projected without prices. -/
def getKitchenQueue (role : RoleType) (orders : List Order) :
    Except PosError (List KitchenOrderResponse) :=
  if !(role = RoleType.COCINA : Bool) then
    .error ⟨.forbidden, "Only COCINA role can access kitchen endpoints"⟩
  else
    .ok ((orders.filter (fun o =>
      (o.status = OrderStatus.RECIBIDO || o.status = OrderStatus.PREPARACION) &&
      o.paidAt.isNone)).map kitchenOrderOf)

/-- `KitchenService.getOrderById` on an order that was found: COCINA-only, and
the projection carries no price field. -/
def kitchenGetOrderById (role : RoleType) (order : Order) :
    Except PosError KitchenOrderResponse :=
  if !(role = RoleType.COCINA : Bool) then
    .error ⟨.forbidden, "Only COCINA role can access kitchen endpoints"⟩
  else
    .ok (kitchenOrderOf order)

/-! Concrete fixtures used by the witnesses and counterexamples below. -/

/-- A two-unit item at price 10. -/
def itemA : OrderItem := ⟨"itA", "Taco", 2, 10, none⟩

/-- A one-unit item at price 5. -/
def itemB : OrderItem := ⟨"itB", "Agua", 1, 5, none⟩

/-- An unpaid table order in RECIBIDO whose item total is 25. -/
def o25 : Order := ⟨"o1", .MESA, some "t1", .RECIBIDO, false, none, none, "u1", [itemA, itemB]⟩

/-- An unpaid order already in the terminal status ENTREGADO. -/
def oDelivered : Order := ⟨"o3", .MESA, some "t2", .ENTREGADO, false, none, none, "u1", [itemA]⟩

/-- An unpaid counter order with exactly one item. -/
def oOne : Order := ⟨"o5", .VENTANILLA, none, .RECIBIDO, false, none, none, "u1", [⟨"i1", "Torta", 1, 7, none⟩]⟩

/-- A paid order (paidAt = 5) in LISTO. -/
def oPaid : Order := ⟨"o4", .MESA, some "t3", .LISTO, true, some 5, none, "u1", [itemA, itemB]⟩

/-- An unpaid order whose single item totals 10, used for the near-total payment case. -/
def oTen : Order := ⟨"o2", .VENTANILLA, none, .RECIBIDO, false, none, none, "u1", [⟨"i2", "Cafe", 1, 10, none⟩]⟩

/-- C1: the claim requires every `changeStatus` write to be conditional on the
status as read, failing with ConcurrencyError when the stored status moved. On
the code, a `changeStatus` whose stored-at-write status (CANCELADO) differs from
the status as read (RECIBIDO) still succeeds and overwrites. -/
theorem C1_counterexample :
    o25.status ≠ OrderStatus.CANCELADO ∧
    changeStatus RoleType.CAJA o25 OrderStatus.PREPARACION OrderStatus.CANCELADO =
      .ok { o25 with status := OrderStatus.PREPARACION } := by
  decide

/-- C1 (amended): `OrderService.changeStatus` performs an unconditional update —
its outcome is independent of the stored status at write time and it never
fails with a concurrency error — while the conditional compare-and-swap write
with a concurrency failure on a stale read exists on the kitchen path
(`startPreparation`): there the call through the stale stored status fails with
the concurrency retry error, so of two racing kitchen calls exactly one
succeeds. -/
theorem C1_amended_thm :
    (∀ (role : RoleType) (o : Order) (ns s s' : OrderStatus),
        changeStatus role o ns s = changeStatus role o ns s')
    ∧ (∀ (role : RoleType) (o : Order) (ns s : OrderStatus) (e : PosError),
        changeStatus role o ns s = .error e → e.kind ≠ ErrKind.concurrency)
    ∧ (∀ o : Order, o.status = OrderStatus.RECIBIDO → o.paidAt = none →
        startPreparation RoleType.COCINA o o.status =
          .ok { o with status := OrderStatus.PREPARACION } ∧
        ∀ s, s ≠ OrderStatus.RECIBIDO →
          startPreparation RoleType.COCINA o s =
            .error ⟨.concurrency, "Order status changed. Please refresh and try again."⟩) := by
  refine ⟨?_, ?_, ?_⟩
  · intro role o ns s s'; rfl
  · intro role o ns s e h hk
    simp only [changeStatus] at h
    split at h <;>
      [skip; split at h <;> [skip; split at h <;> [skip; exact absurd h (by simp)]]] <;>
      (simp only [Except.error.injEq] at h; subst h; exact absurd hk (by decide))
  · intro o h1 h2
    have hv : isValidStatusTransition OrderStatus.RECIBIDO OrderStatus.PREPARACION = true := by
      decide
    constructor
    · rw [h1]
      simp [startPreparation, h1, h2, hv]
    · intro s hs
      simp [startPreparation, h1, h2, hv, hs]

/-- C1 witness: on the concrete unpaid RECIBIDO order, the kitchen call whose
stored status still matches succeeds, and the one with a stale read fails with
the concurrency error. -/
theorem C1_witness :
    startPreparation RoleType.COCINA o25 o25.status =
      .ok { o25 with status := OrderStatus.PREPARACION } ∧
    startPreparation RoleType.COCINA o25 OrderStatus.PREPARACION =
      .error ⟨.concurrency, "Order status changed. Please refresh and try again."⟩ :=
  ⟨(C1_amended_thm.2.2 o25 rfl rfl).1,
   (C1_amended_thm.2.2 o25 rfl rfl).2 OrderStatus.PREPARACION (by decide)⟩

/-- C4: `changeStatus` succeeds only when the transition table allows the edge
and `canChangeStatus` authorizes the role for that exact (from, to) pair; the
per-role authorization matches the claimed matrix (CAJA: every valid edge,
MESERO: only LISTO to ENTREGADO, COCINA: only RECIBIDO to PREPARACION and
PREPARACION to LISTO); on unpaid orders a structurally invalid edge fails with
the validation error and a valid but unauthorized edge fails with the forbidden
error. -/
theorem C4_role_gated_transitions :
    (∀ (role : RoleType) (o : Order) (ns s : OrderStatus) (o' : Order),
        changeStatus role o ns s = .ok o' →
        isValidStatusTransition o.status ns = true ∧ canChangeStatus role o.status ns = true)
    ∧ (∀ f t, canChangeStatus RoleType.CAJA f t = isValidStatusTransition f t)
    ∧ (∀ f t, canChangeStatus RoleType.MESERO f t = true ↔
        f = OrderStatus.LISTO ∧ t = OrderStatus.ENTREGADO)
    ∧ (∀ f t, canChangeStatus RoleType.COCINA f t = true ↔
        ((f = OrderStatus.RECIBIDO ∧ t = OrderStatus.PREPARACION) ∨
         (f = OrderStatus.PREPARACION ∧ t = OrderStatus.LISTO)))
    ∧ (∀ (role : RoleType) (o : Order) (ns s : OrderStatus), o.paidAt = none →
        isValidStatusTransition o.status ns = false →
        changeStatus role o ns s = .error ⟨.validation, "Invalid status transition"⟩)
    ∧ (∀ (role : RoleType) (o : Order) (ns s : OrderStatus), o.paidAt = none →
        isValidStatusTransition o.status ns = true →
        canChangeStatus role o.status ns = false →
        changeStatus role o ns s = .error ⟨.forbidden, "Role cannot change status"⟩) := by
  refine ⟨?_, ?_, ?_, ?_, ?_, ?_⟩
  · intro role o ns s o' h
    simp only [changeStatus] at h
    split at h
    · exact absurd h (by simp)
    · split at h
      · exact absurd h (by simp)
      · split at h
        · exact absurd h (by simp)
        · rename_i h1 h2 h3
          constructor
          · simpa using h2
          · simpa using h3
  · intro f t; rfl
  · intro f t; cases f <;> cases t <;> decide
  · intro f t; cases f <;> cases t <;> decide
  · intro role o ns s hp hv
    simp [changeStatus, hp, hv]
  · intro role o ns s hp hv hc
    simp [changeStatus, hp, hv, hc]

/-- C4 witness: a waiter attempting RECIBIDO to PREPARACION on an unpaid order
hits the forbidden error even though the edge is table-valid. -/
theorem C4_witness :
    changeStatus RoleType.MESERO o25 OrderStatus.PREPARACION o25.status =
      .error ⟨.forbidden, "Role cannot change status"⟩ :=
  C4_role_gated_transitions.2.2.2.2.2 RoleType.MESERO o25 OrderStatus.PREPARACION o25.status
    rfl (by decide) (by decide)

/-- C5: the claim says terminal DELIVERED orders cannot be cancelled; on the
code, cancelling an unpaid ENTREGADO order succeeds and moves it to CANCELADO. -/
theorem C5_counterexample :
    oDelivered.status = OrderStatus.ENTREGADO ∧ oDelivered.paidAt = none ∧
    cancelOrder RoleType.CAJA oDelivered "cliente se fue" =
      .ok { oDelivered with status := OrderStatus.CANCELADO } := by
  decide

/-- C5 (amended): `cancelOrder` succeeds exactly when the caller holds the
cancel permission, the order is unpaid, the status is not already CANCELADO,
and the reason is non-blank — DELIVERED is not excluded, so an unpaid
ENTREGADO order can still be cancelled; paid or already-cancelled orders always
fail with the status unchanged. -/
theorem C5_amended_thm :
    (∀ (role : RoleType) (o : Order) (reason : String) (o' : Order),
        cancelOrder role o reason = .ok o' ↔
        hasPermission role Permission.ORDER_CANCEL = true ∧ o.paidAt = none ∧
        o.status ≠ OrderStatus.CANCELADO ∧ blankReason reason = false ∧
        o' = { o with status := OrderStatus.CANCELADO })
    ∧ (∀ (role : RoleType) (o : Order) (reason : String),
        o.paidAt ≠ none ∨ o.status = OrderStatus.CANCELADO →
        ∀ o' : Order, cancelOrder role o reason ≠ .ok o') := by
  have key : ∀ (role : RoleType) (o : Order) (reason : String) (o' : Order),
      cancelOrder role o reason = .ok o' ↔
      hasPermission role Permission.ORDER_CANCEL = true ∧ o.paidAt = none ∧
      o.status ≠ OrderStatus.CANCELADO ∧ blankReason reason = false ∧
      o' = { o with status := OrderStatus.CANCELADO } := by
    intro role o reason o'
    constructor
    · intro h
      simp only [cancelOrder] at h
      split at h
      · simp_all
      · split at h
        · simp_all
        · split at h
          · simp_all
          · split at h
            · simp_all
            · rename_i h1 h2 h3 h4
              simp only [Except.ok.injEq] at h
              refine ⟨by simpa using h1, by simpa [canCancelOrder] using h2, h3,
                by simpa using h4, h.symm⟩
    · rintro ⟨h1, h2, h3, h4, h5⟩
      simp [cancelOrder, h1, h2, h3, h4, h5, canCancelOrder]
  refine ⟨key, ?_⟩
  intro role o reason hbad o' h
  rcases (key role o reason o').mp h with ⟨h1, h2, h3, h4, h5⟩
  rcases hbad with hb | hb
  · exact hb h2
  · exact h3 hb

/-- C5 witness: cancelling the concrete unpaid RECIBIDO order with a non-blank
reason succeeds. -/
theorem C5_witness :
    cancelOrder RoleType.CAJA o25 "x" = .ok { o25 with status := OrderStatus.CANCELADO } :=
  (C5_amended_thm.1 RoleType.CAJA o25 "x" { o25 with status := OrderStatus.CANCELADO }).mpr
    ⟨by decide, rfl, by decide, by decide, rfl⟩

/-- C7: every read path available to the COCINA role suppresses item prices:
`getOrderById` and `listOrders` null every item price for COCINA, the kitchen
item projection carries no price field (it is insensitive to the price), and
the kitchen queue is built from that projection. -/
theorem C7_kitchen_never_sees_prices :
    (∀ o : Order, ((getOrderById RoleType.COCINA o).items.all fun it => it.price.isNone) = true)
    ∧ (∀ (f : OrderFilters) (os : List Order),
        ((listOrders RoleType.COCINA f os).all fun v => v.items.all fun it => it.price.isNone) = true)
    ∧ (∀ (i : OrderItem) (p : Rat), kitchenItemOf { i with price := p } = kitchenItemOf i)
    ∧ (∀ os : List Order, getKitchenQueue RoleType.COCINA os =
        .ok ((os.filter (fun o =>
          (o.status = OrderStatus.RECIBIDO || o.status = OrderStatus.PREPARACION) &&
          o.paidAt.isNone)).map kitchenOrderOf)) := by
  refine ⟨?_, ?_, ?_, ?_⟩
  · intro o
    simp [getOrderById, List.all_eq_true]
  · intro f os
    rw [List.all_eq_true]
    intro v hv
    simp only [listOrders, if_true, eq_self_iff_true, List.mem_map] at hv
    obtain ⟨o, ho, rfl⟩ := hv
    simp only [List.all_eq_true, List.mem_map]
    rintro it ⟨i, hi, rfl⟩
    rfl
  · intro i p
    rfl
  · intro os
    rfl

/-- C6: a paid order is immutable — `addItems`, `editItem` and `deleteItem` all
fail on it (with the "Cannot modify paid order" state error whenever the caller
holds the corresponding permission, and with the permission error otherwise),
and `changeStatus` fails with the paid-order state error for every target
status other than ENTREGADO. -/
theorem C6_paid_order_immutable :
    ∀ (o : Order) (t : Nat), o.paidAt = some t →
      (∀ (role : RoleType) (its : List CreateOrderItem),
          addItems role o its =
            .error (if hasPermission role Permission.ORDER_ADD_ITEMS
              then ⟨.stateErr, "Cannot modify paid order"⟩
              else ⟨.forbidden, "No permission to add items"⟩))
      ∧ (∀ (role : RoleType) (itemId : String) (p : UpdateOrderItemData),
          editItem role o itemId p =
            .error (if hasPermission role Permission.ORDER_EDIT_ITEMS
              then ⟨.stateErr, "Cannot modify paid order"⟩
              else ⟨.forbidden, "No permission to edit items"⟩))
      ∧ (∀ (role : RoleType) (itemId : String),
          deleteItem role o itemId =
            .error (if hasPermission role Permission.ORDER_DELETE_ITEMS
              then ⟨.stateErr, "Cannot modify paid order"⟩
              else ⟨.forbidden, "No permission to delete items"⟩))
      ∧ (∀ (role : RoleType) (ns s : OrderStatus), ns ≠ OrderStatus.ENTREGADO →
          changeStatus role o ns s = .error ⟨.stateErr, "Cannot change status of paid order"⟩) := by
  intro o t h
  refine ⟨?_, ?_, ?_, ?_⟩
  · intro role its
    by_cases hp : hasPermission role Permission.ORDER_ADD_ITEMS <;>
      simp [addItems, hp, canModifyOrder, h]
  · intro role itemId p
    by_cases hp : hasPermission role Permission.ORDER_EDIT_ITEMS <;>
      simp [editItem, hp, canModifyOrder, h]
  · intro role itemId
    by_cases hp : hasPermission role Permission.ORDER_DELETE_ITEMS <;>
      simp [deleteItem, hp, canModifyOrder, h]
  · intro role ns s hns
    simp [changeStatus, h, hns]

/-- C6 witness: on the concrete paid order, a cashier call to `addItems` fails
with the paid-order state error, and `changeStatus` to RECIBIDO fails likewise. -/
theorem C6_witness :
    addItems RoleType.CAJA oPaid [] =
      .error (if hasPermission RoleType.CAJA Permission.ORDER_ADD_ITEMS
        then ⟨.stateErr, "Cannot modify paid order"⟩
        else ⟨.forbidden, "No permission to add items"⟩) ∧
    changeStatus RoleType.CAJA oPaid OrderStatus.RECIBIDO oPaid.status =
      .error ⟨.stateErr, "Cannot change status of paid order"⟩ :=
  ⟨(C6_paid_order_immutable oPaid 5 rfl).1 RoleType.CAJA [],
   (C6_paid_order_immutable oPaid 5 rfl).2.2.2 RoleType.CAJA OrderStatus.RECIBIDO oPaid.status
     (by decide)⟩

/-- C8: the claim says a one-item `deleteItem` fails with the StateError
regardless of caller role-permission; on the code, a caller without the
delete-items permission (MESERO) fails earlier with the Forbidden kind, which
is not the state kind. -/
theorem C8_counterexample :
    oOne.items.length = 1 ∧
    deleteItem RoleType.MESERO oOne "i1" = .error ⟨.forbidden, "No permission to delete items"⟩ ∧
    ErrKind.forbidden ≠ ErrKind.stateErr := by
  decide

/-- C8 (amended): `deleteItem` on an order with exactly one remaining item
never succeeds; a permitted caller (CAJA) on an unpaid order with the item
present hits the last-item StateError, while unpermitted callers fail earlier
with ForbiddenError; in general a successful `deleteItem` never empties the
items collection. -/
theorem C8_amended_thm :
    (∀ (role : RoleType) (o : Order) (itemId : String), o.items.length = 1 →
        ∀ o' : Order, deleteItem role o itemId ≠ .ok o')
    ∧ (∀ (o : Order) (itemId : String), o.items.length = 1 → o.paidAt = none →
        (o.items.any fun i => i.id = itemId) = true →
        deleteItem RoleType.CAJA o itemId =
          .error ⟨.stateErr, "Cannot delete the last item. Cancel the order instead."⟩)
    ∧ (∀ (role : RoleType) (o : Order) (itemId : String) (o' : Order),
        deleteItem role o itemId = .ok o' → o'.items ≠ []) := by
  refine ⟨?_, ?_, ?_⟩
  · intro role o itemId h1 o' h
    simp only [deleteItem] at h
    repeat' split at h
    all_goals simp_all
  · intro o itemId h1 h2 h3
    have hp : hasPermission RoleType.CAJA Permission.ORDER_DELETE_ITEMS = true := by decide
    simp [deleteItem, hp, canModifyOrder, h1, h2, h3]
  · intro role o itemId o' h
    simp only [deleteItem] at h
    split at h
    · simp_all
    · split at h
      · simp_all
      · split at h
        · simp_all
        · split at h
          · simp_all
          · rename_i hperm hpaid hany hlen
            simp only [Except.ok.injEq] at h
            subst h
            have hany' : (o.items.any fun i => i.id = itemId) = true := by
              simpa using hany
            have hpos : 0 < o.items.length := by
              rcases List.any_eq_true.mp hany' with ⟨x, hx, _⟩
              exact List.length_pos.mpr (List.ne_nil_of_mem hx)
            intro hnil
            have hlen0 := congrArg List.length hnil
            rw [List.length_eraseP] at hlen0
            rw [hany'] at hlen0
            simp at hlen0
            omega

/-- C8 witness: a cashier deleting the only item of the concrete one-item
unpaid order hits the last-item StateError. -/
theorem C8_witness :
    deleteItem RoleType.CAJA oOne "i1" =
      .error ⟨.stateErr, "Cannot delete the last item. Cancel the order instead."⟩ :=
  C8_amended_thm.2.1 oOne "i1" rfl rfl (by decide)

/-- C9: the claim says `requestBill` fails only when the order is absent or
already paid; on the code, a COCINA caller on an existing unpaid order fails
with the permission error. -/
theorem C9_counterexample :
    o25.paidAt = none ∧
    requestBill RoleType.COCINA o25 = .error ⟨.forbidden, "No permission to request bill"⟩ := by
  decide

/-- C9 (amended): for callers holding the request-bill permission (CAJA and
MESERO) `requestBill` on an unpaid order succeeds setting requestedBill = true
and a second call succeeds again leaving it true (idempotent); for such
callers it fails exactly when the order is already paid (or absent); a COCINA
caller always fails with ForbiddenError; the waiter-service path behaves the
same way for MESERO. -/
theorem C9_amended_thm :
    (∀ (role : RoleType) (o : Order), hasPermission role Permission.ORDER_REQUEST_BILL = true →
        o.paidAt = none →
        requestBill role o = .ok { o with requestedBill := true } ∧
        requestBill role { o with requestedBill := true } = .ok { o with requestedBill := true })
    ∧ (∀ (role : RoleType) (o : Order), hasPermission role Permission.ORDER_REQUEST_BILL = true →
        o.paidAt ≠ none → requestBill role o = .error ⟨.stateErr, "Order is already paid"⟩)
    ∧ (∀ o : Order, requestBill RoleType.COCINA o =
        .error ⟨.forbidden, "No permission to request bill"⟩)
    ∧ (∀ o : Order, o.paidAt = none →
        waiterRequestBill RoleType.MESERO o = .ok { o with requestedBill := true } ∧
        waiterRequestBill RoleType.MESERO { o with requestedBill := true } =
          .ok { o with requestedBill := true }) := by
  refine ⟨?_, ?_, ?_, ?_⟩
  · intro role o hp h
    constructor <;> simp [requestBill, hp, h]
  · intro role o hp h
    simp [requestBill, hp, Option.isSome_iff_ne_none, h]
  · intro o
    have hp : hasPermission RoleType.COCINA Permission.ORDER_REQUEST_BILL = false := by decide
    simp [requestBill, hp]
  · intro o h
    constructor <;> simp [waiterRequestBill, h]

/-- C9 witness: two successive waiter-permission `requestBill` calls on the
concrete unpaid order both succeed and leave requestedBill = true. -/
theorem C9_witness :
    requestBill RoleType.MESERO o25 = .ok { o25 with requestedBill := true } ∧
    requestBill RoleType.MESERO { o25 with requestedBill := true } =
      .ok { o25 with requestedBill := true } :=
  C9_amended_thm.1 RoleType.MESERO o25 (by decide) rfl

/-- The paid total of the payments list extended by one more payment row. -/
lemma calculatePaidTotal_append (ps : List Payment) (p : Payment) :
    calculatePaidTotal (ps ++ [p]) = calculatePaidTotal ps + p.amount := by
  simp [calculatePaidTotal, List.foldl_append]

/-- C3: the claim says an overshoot within the 0.01 tolerance is accepted; on
the code the overshoot check is strict, so a payment of 25.005 against a
25-total order — an overshoot of 0.005, within tolerance — is rejected with the
validation error. -/
theorem C3_counterexample :
    (calculatePaidTotal [] + 5001/200 - calculateOrderTotal o25.items < tolerance
      ∧ 0 < calculatePaidTotal [] + 5001/200 - calculateOrderTotal o25.items)
    ∧ createPayment RoleType.CAJA true o25 [] PaymentMethod.EFECTIVO (5001/200) 7 =
        .error ⟨.validation, "Payment amount exceeds order total"⟩ := by
  constructor
  · constructor <;>
      · simp only [calculateOrderTotal, calculatePaidTotal, tolerance, o25, itemA, itemB]
        norm_num
  · simp only [createPayment, o25, itemA, itemB, hasPermission, ROLE_PERMISSIONS,
      calculateOrderTotal, calculatePaidTotal, tolerance]
    norm_num [abs_lt]
    decide

/-- C3 (amended): on a valid unpaid order, `createPayment` fails with the
overpayment validation error exactly when paidTotal + amount strictly exceeds
orderTotal — no tolerance is applied to this check — and consequently after
every successful payment the accumulated paid total never exceeds orderTotal
at all (a fortiori never orderTotal + tolerance). -/
theorem C3_amended_thm :
    (∀ (role : RoleType) (hs : Bool) (o : Order) (ps : List Payment) (m : PaymentMethod)
        (a : Rat) (now : Nat),
        hasPermission role Permission.ORDER_MARK_PAID = true → role = RoleType.CAJA →
        hs = true → o.status ≠ OrderStatus.CANCELADO → o.paidAt = none → 0 < a →
        (createPayment role hs o ps m a now =
            .error ⟨.validation, "Payment amount exceeds order total"⟩ ↔
          calculateOrderTotal o.items < calculatePaidTotal ps + a))
    ∧ (∀ (role : RoleType) (hs : Bool) (o : Order) (ps : List Payment) (m : PaymentMethod)
        (a : Rat) (now : Nat) (r : PaymentResult),
        createPayment role hs o ps m a now = .ok r →
        r.payments = ps ++ [⟨a, m⟩] ∧
        calculatePaidTotal r.payments ≤ calculateOrderTotal o.items) := by
  constructor
  · intro role hs o ps m a now hperm hrole hhs h1 h2 h3
    subst hrole; subst hhs
    constructor
    · intro h
      by_contra hlt
      simp [createPayment, hperm, h1, h2, not_le.mpr h3, hlt] at h
    · intro hlt
      simp [createPayment, hperm, h1, h2, not_le.mpr h3, hlt]
  · intro role hs o ps m a now r h
    simp only [createPayment] at h
    repeat' split at h
    all_goals cases h
    all_goals refine ⟨rfl, ?_⟩
    all_goals rw [calculatePaidTotal_append]
    all_goals rename_i hguard hdiff
    all_goals exact le_of_not_lt hguard

/-- C3 witness: on the concrete 25-total order with no prior payments, a
payment of 26 is rejected with the overpayment validation error. -/
theorem C3_witness :
    createPayment RoleType.CAJA true o25 [] PaymentMethod.EFECTIVO 26 7 =
      .error ⟨.validation, "Payment amount exceeds order total"⟩ :=
  (C3_amended_thm.1 RoleType.CAJA true o25 [] PaymentMethod.EFECTIVO 26 7
      (by decide) rfl rfl (by decide) rfl (by norm_num)).mpr
    (by simp only [calculateOrderTotal, calculatePaidTotal, o25, itemA, itemB]; norm_num)

/-- C2: `paidAt` is written only by `createPayment`: a successful payment finds
the order unpaid and sets `paidAt` to the current time exactly when the updated
paid total is within the 0.01 tolerance of the order total (otherwise it stays
none); `createPayment` on an already-paid order always fails, so `paidAt` is
set at most once; and every other modelled operation preserves `paidAt`
unchanged. -/
theorem C2_paidAt_only_createPayment :
    (∀ (role : RoleType) (hs : Bool) (o : Order) (ps : List Payment) (m : PaymentMethod)
        (a : Rat) (now : Nat) (r : PaymentResult),
        createPayment role hs o ps m a now = .ok r →
        o.paidAt = none ∧
        (r.order.paidAt = some now ↔
          |calculatePaidTotal ps + a - calculateOrderTotal o.items| < tolerance) ∧
        (¬ |calculatePaidTotal ps + a - calculateOrderTotal o.items| < tolerance →
          r.order.paidAt = none))
    ∧ (∀ (role : RoleType) (hs : Bool) (o : Order) (ps : List Payment) (m : PaymentMethod)
        (a : Rat) (now : Nat) (t : Nat), o.paidAt = some t →
        ∀ r, createPayment role hs o ps m a now ≠ .ok r)
    ∧ (∀ (role : RoleType) (o : Order) (its : List CreateOrderItem) (o' : Order),
        addItems role o its = .ok o' → o'.paidAt = o.paidAt)
    ∧ (∀ (role : RoleType) (o : Order) (itemId : String) (p : UpdateOrderItemData) (o' : Order),
        editItem role o itemId p = .ok o' → o'.paidAt = o.paidAt)
    ∧ (∀ (role : RoleType) (o : Order) (itemId : String) (o' : Order),
        deleteItem role o itemId = .ok o' → o'.paidAt = o.paidAt)
    ∧ (∀ (role : RoleType) (o : Order) (ns s : OrderStatus) (o' : Order),
        changeStatus role o ns s = .ok o' → o'.paidAt = o.paidAt)
    ∧ (∀ (role : RoleType) (o : Order) (reason : String) (o' : Order),
        cancelOrder role o reason = .ok o' → o'.paidAt = o.paidAt)
    ∧ (∀ (role : RoleType) (o : Order) (o' : Order),
        requestBill role o = .ok o' → o'.paidAt = o.paidAt)
    ∧ (∀ (role : RoleType) (o : Order) (o' : Order),
        waiterRequestBill role o = .ok o' → o'.paidAt = o.paidAt)
    ∧ (∀ (role : RoleType) (o : Order) (s : OrderStatus) (o' : Order),
        startPreparation role o s = .ok o' → o'.paidAt = o.paidAt)
    ∧ (∀ (role : RoleType) (o : Order) (s : OrderStatus) (o' : Order),
        markReady role o s = .ok o' → o'.paidAt = o.paidAt)
    ∧ (∀ (role : RoleType) (o : Order) (s : OrderStatus) (o' : Order),
        deliverOrder role o s = .ok o' → o'.paidAt = o.paidAt) := by
  refine ⟨?_, ?_, ?_, ?_, ?_, ?_, ?_, ?_, ?_, ?_, ?_, ?_⟩
  · intro role hs o ps m a now r h
    simp only [createPayment] at h
    repeat' split at h
    all_goals cases h
    all_goals simp_all [Option.not_isSome_iff_eq_none]
  · intro role hs o ps m a now t hpaid r h
    simp only [createPayment] at h
    repeat' split at h
    all_goals simp_all
  · intro role o its o' h
    simp only [addItems] at h
    repeat' split at h
    all_goals cases h
    all_goals rfl
  · intro role o itemId p o' h
    simp only [editItem] at h
    repeat' split at h
    all_goals cases h
    all_goals rfl
  · intro role o itemId o' h
    simp only [deleteItem] at h
    repeat' split at h
    all_goals cases h
    all_goals rfl
  · intro role o ns s o' h
    simp only [changeStatus] at h
    repeat' split at h
    all_goals cases h
    all_goals rfl
  · intro role o reason o' h
    simp only [cancelOrder] at h
    repeat' split at h
    all_goals cases h
    all_goals rfl
  · intro role o o' h
    simp only [requestBill] at h
    repeat' split at h
    all_goals cases h
    all_goals rfl
  · intro role o o' h
    simp only [waiterRequestBill] at h
    repeat' split at h
    all_goals cases h
    all_goals rfl
  · intro role o s o' h
    simp only [startPreparation] at h
    repeat' split at h
    all_goals cases h
    all_goals rfl
  · intro role o s o' h
    simp only [markReady] at h
    repeat' split at h
    all_goals cases h
    all_goals rfl
  · intro role o s o' h
    simp only [deliverOrder] at h
    repeat' split at h
    all_goals cases h
    all_goals rfl

/-- C2 witness: a full payment of 25 on the concrete unpaid 25-total order
succeeds with the order marked paid at the payment time, matching the
tolerance test. -/
theorem C2_witness :
    o25.paidAt = none ∧
    ((⟨{ o25 with paidAt := some 7 }, [⟨25, PaymentMethod.EFECTIVO⟩], 25, 25, 0, true⟩ :
        PaymentResult).order.paidAt = some 7 ↔
      |calculatePaidTotal [] + 25 - calculateOrderTotal o25.items| < tolerance) := by
  have h := C2_paidAt_only_createPayment.1 RoleType.CAJA true o25 [] PaymentMethod.EFECTIVO 25 7
    ⟨{ o25 with paidAt := some 7 }, [⟨25, PaymentMethod.EFECTIVO⟩], 25, 25, 0, true⟩
    (by simp only [createPayment, o25, itemA, itemB, hasPermission, ROLE_PERMISSIONS,
          calculateOrderTotal, calculatePaidTotal, tolerance]
        norm_num [abs_lt]
        decide)
  exact ⟨h.1, h.2.1⟩

/-- C10: when a successful payment lands the accumulated paid total strictly
between orderTotal − 0.01 and orderTotal, the order is marked paid (the
tolerance test passes) while the returned isPaid is false — it is computed as
updatedPaidTotal ≥ orderTotal — and the returned remaining is a small positive
amount. -/
theorem C10_near_total_payment :
    ∀ (o : Order) (ps : List Payment) (m : PaymentMethod) (a : Rat) (now : Nat),
      o.status ≠ OrderStatus.CANCELADO → o.paidAt = none → 0 < a →
      calculateOrderTotal o.items - tolerance < calculatePaidTotal ps + a →
      calculatePaidTotal ps + a < calculateOrderTotal o.items →
      createPayment RoleType.CAJA true o ps m a now =
        .ok ⟨{ o with paidAt := some now }, ps ++ [⟨a, m⟩], calculateOrderTotal o.items,
             calculatePaidTotal ps + a,
             calculateOrderTotal o.items - (calculatePaidTotal ps + a), false⟩
      ∧ 0 < calculateOrderTotal o.items - (calculatePaidTotal ps + a) := by
  intro o ps m a now h1 h2 h3 h4 h5
  have hperm : hasPermission RoleType.CAJA Permission.ORDER_MARK_PAID = true := by decide
  have h6 : ¬(a ≤ 0) := not_le.mpr h3
  have h7 : ¬(calculateOrderTotal o.items < calculatePaidTotal ps + a) :=
    not_lt.mpr (le_of_lt h5)
  have h8 : |calculatePaidTotal ps + a - calculateOrderTotal o.items| < tolerance := by
    rw [abs_of_neg (by linarith)]
    linarith
  have h9 : ¬(calculatePaidTotal ps + a ≥ calculateOrderTotal o.items) := not_le.mpr h5
  constructor
  · simp [createPayment, hperm, h1, h2, h6, h7, h8, decide_eq_false h9]
  · linarith

/-- C10 witness: paying 0.995 against the 10-total order that already has 9
paid lands at 9.995 — the order is marked paid, yet isPaid is false and 0.005
remains. -/
theorem C10_witness :
    createPayment RoleType.CAJA true oTen [⟨9, PaymentMethod.EFECTIVO⟩] PaymentMethod.EFECTIVO
        (199/200) 7 =
      .ok ⟨{ oTen with paidAt := some 7 },
           [⟨9, PaymentMethod.EFECTIVO⟩] ++ [⟨199/200, PaymentMethod.EFECTIVO⟩],
           calculateOrderTotal oTen.items,
           calculatePaidTotal [⟨9, PaymentMethod.EFECTIVO⟩] + 199/200,
           calculateOrderTotal oTen.items -
             (calculatePaidTotal [⟨9, PaymentMethod.EFECTIVO⟩] + 199/200), false⟩
    ∧ 0 < calculateOrderTotal oTen.items -
        (calculatePaidTotal [⟨9, PaymentMethod.EFECTIVO⟩] + 199/200) :=
  C10_near_total_payment oTen [⟨9, PaymentMethod.EFECTIVO⟩] PaymentMethod.EFECTIVO (199/200) 7
    (by decide) rfl (by norm_num)
    (by simp only [calculateOrderTotal, calculatePaidTotal, tolerance, oTen]; norm_num)
    (by simp only [calculateOrderTotal, calculatePaidTotal, oTen]; norm_num)

end Pos
